import Mathlib

/-!
Verification development for the Alert-Service repository.

The relay pipeline of the service is embedded shallowly:

* src/models.py: the pydantic models EmergencyEvent, Alert, ClientAlert and
  the AlertType enumeration.
* src/mqtt_handler.py: the MQTTAlertHandler class - the alert id counter,
  the event-to-alert transformation, the client projection, the broadcast
  and per-client publish operations, and the inbound message callback.
* src/main.py: the AlertService configuration reading and the keyword
  binding of its MQTTAlertHandler construction call.

Modelling conventions:

* Python dict values carried inside an event are modelled by the inductive
  JValue (JSON-like values; numeric literals are modelled as integers).
* A Python dict is an association list with string keys in insertion order;
  dict.get is the first lookup.
* datetime values are modelled by the canonical ISO string that produced
  them (structure PyDateTime); datetime.isoformat returns that string.
  pydantic also accepts numeric epochs for datetime fields; those inputs
  are outside this model, no claim depends on them.
* pydantic v2 lax coercion for a list of ints field accepts a Python list
  whose elements are ints or integer strings (the repository uses the
  pydantic v2 API: model_dump_json). Everything else is a ValidationError.
* A method that can raise returns an Except value; a method that mutates
  the handler returns the new handler.
-/

/-- JSON-like Python values that may appear inside the details payload of an
event. Floats are not modelled; no claim involves them. -/
inductive JValue where
  | null : JValue
  | bool (b : Bool) : JValue
  | int (n : Int) : JValue
  | str (s : String) : JValue
  | list (xs : List JValue) : JValue
  | dict (kvs : List (String × JValue)) : JValue
deriving Repr

/-- Python dict with string keys, in insertion order. -/
abbrev PyDict := List (String × JValue)

mutual

/-- Python repr of a value, for the cases JValue covers (string escaping is
not modelled; no claim depends on it). -/
def pyRepr : JValue → String
  | .null => "None"
  | .bool true => "True"
  | .bool false => "False"
  | .int n => toString n
  | .str s => "\x27" ++ s ++ "\x27"
  | .list xs => "[" ++ pyReprList xs ++ "]"
  | .dict kvs => "\x7b" ++ pyReprDict kvs ++ "\x7d"

/-- Comma-separated reprs of the elements of a Python list. -/
def pyReprList : List JValue → String
  | [] => ""
  | [x] => pyRepr x
  | x :: y :: xs => pyRepr x ++ ", " ++ pyReprList (y :: xs)

/-- Comma-separated key: value reprs of the entries of a Python dict. -/
def pyReprDict : List (String × JValue) → String
  | [] => ""
  | [(k, v)] => "\x27" ++ k ++ "\x27: " ++ pyRepr v
  | (k, v) :: e :: kvs => "\x27" ++ k ++ "\x27: " ++ pyRepr v ++ ", " ++ pyReprDict (e :: kvs)

end

/-- Python str() of a value: the value itself for a string, repr otherwise
(this is how an f-string renders an interpolated value). -/
def pyStr : JValue → String
  | .str s => s
  | v => pyRepr v

/-- Uppercasing of one ASCII character. -/
def asciiUpperChar (c : Char) : Char :=
  if c.toNat ≥ 97 && c.toNat ≤ 122 then Char.ofNat (c.toNat - 32) else c

/-- ASCII model of Python str.upper. -/
def pyUpper (s : String) : String := String.mk (s.toList.map asciiUpperChar)

example : pyStr (.str "Fire in B") = "Fire in B" := by rfl
example : pyStr (.int 5) = "5" := by rfl
example : pyStr (.list [.int 1, .str "a"]) = "[1, \x27a\x27]" := by rfl

/-- Model of a Python datetime: the canonical ISO-8601 string it was parsed
from. -/
structure PyDateTime where
  iso : String
deriving Repr, DecidableEq

/-- Model of datetime.isoformat: the datetime renders back to its canonical
ISO string. -/
def PyDateTime.isoformat (d : PyDateTime) : String := d.iso

/-- Simplified decidable model of the datetime strings pydantic accepts:
exactly the canonical form YYYY-MM-DDTHH:MM:SS (19 characters). pydantic
accepts more shapes (offsets, fractions, date-only); no claim depends on
those. -/
def isIsoDatetime (s : String) : Bool :=
  let cs := s.toList
  let digitAt := fun (i : Nat) => match cs.get? i with
    | some c => c.isDigit
    | none => false
  let charAt := fun (i : Nat) (c : Char) => cs.get? i == some c
  cs.length == 19 &&
  digitAt 0 && digitAt 1 && digitAt 2 && digitAt 3 && charAt 4 '-' &&
  digitAt 5 && digitAt 6 && charAt 7 '-' && digitAt 8 && digitAt 9 &&
  charAt 10 'T' && digitAt 11 && digitAt 12 && charAt 13 ':' &&
  digitAt 14 && digitAt 15 && charAt 16 ':' && digitAt 17 && digitAt 18

example : isIsoDatetime "2024-01-01T12:00:00" = true := by decide
example : isIsoDatetime "garbage" = false := by decide

/-- AlertType enumeration from src/models.py. -/
inductive AlertType where
  | FIRE
  | SECURITY
  | MEDICAL
  | EVACUATION
deriving Repr, DecidableEq

/-- Model of the .value attribute of the AlertType enum members. -/
def AlertType.value : AlertType → String
  | .FIRE => "FIRE"
  | .SECURITY => "SECURITY"
  | .MEDICAL => "MEDICAL"
  | .EVACUATION => "EVACUATION"

/-- EmergencyEvent from src/models.py: the validated shape of an inbound
event. Required fields are event_id, event_type, timestamp, severity;
location_id, location, metadata and details are optional with default
None. -/
structure EmergencyEvent where
  event_id : String
  event_type : String
  timestamp : PyDateTime
  location_id : Option String := none
  location : Option PyDict := none
  severity : String
  metadata : Option PyDict := none
  details : Option PyDict := none
deriving Repr

/-- Python or on an optional dict and a dict: None and the empty dict are
falsy, so the left operand is returned exactly when it is a present
non-empty dict. -/
def pyOrDict (a : Option PyDict) (b : PyDict) : PyDict :=
  match a with
  | some d => if d.isEmpty then b else d
  | none => b

/-- Model of EmergencyEvent.get_details from src/models.py:
self.metadata or self.details or \x7b\x7d. -/
def EmergencyEvent.get_details (e : EmergencyEvent) : PyDict :=
  pyOrDict e.metadata (pyOrDict e.details [])

/-- Alert from src/models.py: the internal alert. The timestamp and
severity defaults of the pydantic model are not modelled because every
Alert the handler builds supplies all fields. -/
structure Alert where
  id : Nat
  type : AlertType
  disabled_tiles : List Int
  message : String
  timestamp : PyDateTime
  severity : String
deriving Repr, DecidableEq

/-- ClientAlert from src/models.py: the outbound wire projection. -/
structure ClientAlert where
  alert_id : Nat
  alert_type : String
  message : String
  timestamp : String
  severity : String
  affected_areas : List Int
deriving Repr, DecidableEq

/-- Numeric value of a string of decimal digits. -/
def digitsVal (cs : List Char) : Nat :=
  cs.foldl (fun a c => a * 10 + (c.toNat - 48)) 0

/-- Decimal integer literal parser: an optional sign followed by at least
one digit. Models the strings pydantic coerces into an int field. -/
def parseIntString (s : String) : Option Int :=
  match s.toList with
  | [] => none
  | '-' :: rest =>
      if !rest.isEmpty && rest.all Char.isDigit then some (-(digitsVal rest : Int)) else none
  | '+' :: rest =>
      if !rest.isEmpty && rest.all Char.isDigit then some (digitsVal rest) else none
  | cs => if cs.all Char.isDigit then some (digitsVal cs) else none

/-- Model of pydantic v2 lax coercion into an int field: ints pass through,
strings spelling an integer are coerced, everything else fails. -/
def pyCoerceInt : JValue → Option Int
  | .int n => some n
  | .str s => parseIntString s
  | _ => none

/-- Model of pydantic v2 validation of a list of ints field: the input must
be a Python list and every element must coerce to an int. -/
def pyCoerceIntList : JValue → Option (List Int)
  | .list xs => xs.mapM pyCoerceInt
  | _ => none

example : pyCoerceIntList (.list [.int 101, .int 102]) = some [101, 102] := by decide
example : pyCoerceIntList (.list [.str "5"]) = some [5] := by decide
example : pyCoerceIntList (.int 5) = none := by decide
example : pyCoerceIntList (.list [.str "abc"]) = none := by decide

/-- A single outbound publish: the topic and the projected alert handed to
the client publisher (JSON text serialization of the projection is
transport plumbing and is not modelled). -/
structure Publish where
  topic : String
  alert : ClientAlert
deriving Repr, DecidableEq

/-- Semantic value of a custom message callback: from the current alert id
counter (the only relevant mutable state a callback can touch) and the
decoded event, it yields the new counter, the publishes it performed
before returning or raising, and the exception it raised, if any. -/
def CallbackSem : Type :=
  Nat → EmergencyEvent → Nat × List Publish × Option String

/-- MQTTAlertHandler from src/mqtt_handler.py. The paho client objects are
transport plumbing; the modelled state is the configuration strings, the
alert id counter and the optional message callback. The source field
client_topic_prefix is named client_topic_stem here. -/
structure MQTTAlertHandler where
  simulator_broker : String
  simulator_port : Int
  simulator_topic : String := "stadium/events/alerts"
  client_broker : String
  client_port : Int
  client_topic_stem : String := "alerts/client"
  broadcast_topic : String := "alerts/broadcast"
  alert_id_counter : Nat := 0
  message_callback : Option CallbackSem := none

/-- Model of MQTTAlertHandler.set_message_callback. -/
def MQTTAlertHandler.set_message_callback
    (h : MQTTAlertHandler) (cb : CallbackSem) : MQTTAlertHandler :=
  { h with message_callback := some cb }

/-- Model of MQTTAlertHandler.stop: it only tears down the two transport
connections (unmodelled); no modelled field changes. -/
def MQTTAlertHandler.stop (h : MQTTAlertHandler) : MQTTAlertHandler := h

/-- The alert_type_map literal of _create_alert_from_event. -/
def alert_type_map : List (String × AlertType) :=
  [("FIRE", .FIRE),
   ("FIRE_ALERT", .FIRE),
   ("SECURITY", .SECURITY),
   ("MEDICAL", .MEDICAL),
   ("EVACUATION", .EVACUATION)]

/-- Classification line of _create_alert_from_event:
alert_type_map.get(event.event_type.upper(), AlertType.SECURITY). -/
def eventAlertType (e : EmergencyEvent) : AlertType :=
  (alert_type_map.lookup (pyUpper e.event_type)).getD .SECURITY

/-- Message line of _create_alert_from_event: the f-string interpolating
the literal event_type and details.get with the fixed fallback. -/
def eventMessage (e : EmergencyEvent) : String :=
  e.event_type ++ ": " ++
    (match (e.get_details).lookup "description" with
     | some v => pyStr v
     | none => "Emergency detected")

/-- Value handed to the disabled_tiles field of Alert:
details.get("disabled_tiles", []), then pydantic validation of the
list of ints field. The absent case supplies the empty list, which always
validates; a present value must coerce, otherwise Alert raises a
ValidationError. Every other Alert field is a str, int, AlertType or
datetime that is well-typed by construction, so disabled_tiles is the only
field whose validation can fail. -/
def eventTiles (e : EmergencyEvent) : Option (List Int) :=
  match (e.get_details).lookup "disabled_tiles" with
  | none => some []
  | some v => pyCoerceIntList v

/-- Model of MQTTAlertHandler._create_alert_from_event. The counter
increment happens first, so it persists even when the Alert construction
raises; the error value models the pydantic ValidationError escaping the
method. -/
def MQTTAlertHandler.create_alert_from_event
    (h : MQTTAlertHandler) (e : EmergencyEvent) :
    MQTTAlertHandler × Except String Alert :=
  let h2 := { h with alert_id_counter := h.alert_id_counter + 1 }
  match eventTiles e with
  | some tiles =>
      (h2, .ok { id := h2.alert_id_counter
                 type := eventAlertType e
                 disabled_tiles := tiles
                 message := eventMessage e
                 timestamp := e.timestamp
                 severity := e.severity })
  | none => (h2, .error "ValidationError: disabled_tiles")

/-- The ClientAlert construction appearing verbatim in both broadcast_alert
and send_alert_to_client of src/mqtt_handler.py. -/
def projectClientAlert (alert : Alert) : ClientAlert :=
  { alert_id := alert.id
    alert_type := alert.type.value
    message := alert.message
    timestamp := alert.timestamp.isoformat
    severity := alert.severity
    affected_areas := alert.disabled_tiles }

/-- Model of MQTTAlertHandler.broadcast_alert: project and publish to the
broadcast topic. The publish result code only selects a log line; no
modelled field changes. -/
def MQTTAlertHandler.broadcast_alert
    (h : MQTTAlertHandler) (alert : Alert) : MQTTAlertHandler × List Publish :=
  (h, [{ topic := h.broadcast_topic, alert := projectClientAlert alert }])

/-- Model of MQTTAlertHandler.send_alert_to_client: project and publish to
the per-client topic built from the configured topic stem. -/
def MQTTAlertHandler.send_alert_to_client
    (h : MQTTAlertHandler) (client_id : String) (alert : Alert) :
    MQTTAlertHandler × List Publish :=
  (h, [{ topic := h.client_topic_stem ++ "/" ++ client_id
         alert := projectClientAlert alert }])

/-- Validation of a required pydantic str field: present and a string. -/
def reqStrField (d : PyDict) (k : String) : Except String String :=
  match d.lookup k with
  | some (.str s) => .ok s
  | some _ => .error ("ValidationError: " ++ k)
  | none => .error ("ValidationError: missing " ++ k)

/-- Validation of an optional pydantic str field: absent or None give None,
a string passes, anything else fails. -/
def optStrField (d : PyDict) (k : String) : Except String (Option String) :=
  match d.lookup k with
  | none => .ok none
  | some .null => .ok none
  | some (.str s) => .ok (some s)
  | some _ => .error ("ValidationError: " ++ k)

/-- Validation of an optional pydantic dict field: absent or None give None,
a dict passes, anything else fails. -/
def optDictField (d : PyDict) (k : String) : Except String (Option PyDict) :=
  match d.lookup k with
  | none => .ok none
  | some .null => .ok none
  | some (.dict kvs) => .ok (some kvs)
  | some _ => .error ("ValidationError: " ++ k)

/-- Validation of the required datetime field: a string in the modelled
canonical ISO form. -/
def reqDatetimeField (d : PyDict) (k : String) : Except String PyDateTime :=
  match d.lookup k with
  | some (.str s) => if isIsoDatetime s then .ok { iso := s } else .error "ValidationError: timestamp"
  | some _ => .error "ValidationError: timestamp"
  | none => .error "ValidationError: missing timestamp"

/-- Model of EmergencyEvent(**payload) in _on_message: pydantic validation
of a decoded JSON payload. A non-dict payload fails (the keyword expansion
itself raises); extra keys are ignored, as pydantic does by default. -/
def parseEvent : JValue → Except String EmergencyEvent
  | .dict d => do
      let event_id ← reqStrField d "event_id"
      let event_type ← reqStrField d "event_type"
      let timestamp ← reqDatetimeField d "timestamp"
      let location_id ← optStrField d "location_id"
      let location ← optDictField d "location"
      let severity ← reqStrField d "severity"
      let metadata ← optDictField d "metadata"
      let details ← optDictField d "details"
      .ok { event_id, event_type, timestamp, location_id, location,
            severity, metadata, details }
  | _ => .error "TypeError: payload is not a mapping"

/-- An inbound transport payload as seen after json.loads: either a decode
failure or a decoded JSON value. -/
inductive RawPayload where
  | invalidJson : RawPayload
  | json (v : JValue) : RawPayload

/-- Model of MQTTAlertHandler._on_message. The whole body runs inside
try/except, so the method is total: a JSON decode failure, a validation
failure, a raising callback and a raising Alert construction are all
caught and logged, leaving whatever state mutation already happened in
place and producing no further publish. -/
def MQTTAlertHandler.on_message
    (h : MQTTAlertHandler) (raw : RawPayload) : MQTTAlertHandler × List Publish :=
  match raw with
  | .invalidJson => (h, [])
  | .json v =>
    match parseEvent v with
    | .error _ => (h, [])
    | .ok event =>
      match h.message_callback with
      | some cb =>
          let r := cb h.alert_id_counter event
          ({ h with alert_id_counter := r.1 }, r.2.1)
      | none =>
          let r := h.create_alert_from_event event
          match r.2 with
          | .ok alert => (r.1, (r.1.broadcast_alert alert).2)
          | .error _ => (r.1, [])

/-- Sequential calls to _create_alert_from_event on one handler instance,
returning the final handler and the per-call results in call order. -/
def runBuilds (h : MQTTAlertHandler) :
    List EmergencyEvent → MQTTAlertHandler × List (Except String Alert)
  | [] => (h, [])
  | e :: es =>
      let r := h.create_alert_from_event e
      let rest := runBuilds r.1 es
      (rest.1, r.2 :: rest.2)

/-- Environment for AlertService configuration reading. -/
abbrev Env := List (String × String)

/-- Model of os.getenv with a string default. -/
def envGet (env : Env) (k d : String) : String := (env.lookup k).getD d

/-- Configuration values computed by AlertService.__init__ in src/main.py
before the handler construction is attempted. The port is None when
int() of the environment string raises. -/
structure AlertServiceConfig where
  broker : String
  port : Option Int
  simulator_topic : String
  client_topic_stem : String
deriving Repr, DecidableEq

/-- Model of the os.getenv lines of AlertService.__init__. -/
def readServiceConfig (env : Env) : AlertServiceConfig :=
  { broker := envGet env "MQTT_BROKER" "localhost"
    port := match env.lookup "MQTT_PORT" with
            | none => some 1883
            | some s => parseIntString s
    simulator_topic := envGet env "SIMULATOR_TOPIC" "stadium/events/emergency"
    client_topic_stem := envGet env "CLIENT_TOPIC_PREFIX" "alerts/client" }

/-- Parameter names of MQTTAlertHandler.__init__ in src/mqtt_handler.py. -/
def mqttHandlerInitParams : List String :=
  ["simulator_broker", "simulator_port", "client_broker", "client_port",
   "simulator_topic", "client_topic_prefix"]

/-- Parameters of MQTTAlertHandler.__init__ without a default value. -/
def mqttHandlerInitRequired : List String :=
  ["simulator_broker", "simulator_port", "client_broker", "client_port"]

/-- Keyword names AlertService.__init__ passes to MQTTAlertHandler(...). -/
def alertServiceCallKwargs : List String :=
  ["broker", "port", "simulator_topic", "client_topic_prefix"]

/-- Python keyword binding: a call succeeds exactly when every supplied
keyword names a parameter and every parameter without a default is
supplied. -/
def kwargsBind (params required kwargs : List String) : Bool :=
  kwargs.all (fun k => params.contains k) &&
  required.all (fun p => kwargs.contains p)

/-- Model of AlertService.__init__ in src/main.py: read the configuration,
evaluate int() on the port, then attempt the MQTTAlertHandler call with
the keyword names written in the source. On success the configuration the
handler was built from would be returned; a binding mismatch raises
TypeError. -/
def alertServiceInit (env : Env) : Except String AlertServiceConfig :=
  let cfg := readServiceConfig env
  match cfg.port with
  | none => .error "ValueError: invalid literal for int()"
  | some _ =>
      if kwargsBind mqttHandlerInitParams mqttHandlerInitRequired alertServiceCallKwargs
      then .ok cfg
      else .error "TypeError: unexpected keyword argument"

/-- Interleaving model of the statement self.alert_id_counter += 1 executed
by two concurrent inbound callbacks. CPython compiles the statement to a
load of the attribute, an add, and a store, with no lock around them, so
each thread performs two shared-memory micro-steps: a read of the counter
into a local, then a write of local + 1 back, the written value being the
id that call observes. -/
structure RaceState where
  counter : Nat
  localA : Option Nat
  localB : Option Nat
  idA : Option Nat
  idB : Option Nat
deriving Repr, DecidableEq

/-- Initial state: counter 0 (a fresh handler), neither call started. -/
def raceInit : RaceState :=
  { counter := 0, localA := none, localB := none, idA := none, idB := none }

/-- One micro-step of the chosen thread (true picks the first call): read
the counter if not yet read, else write the incremented value and record
it as the observed id; a finished thread does nothing. -/
def raceStep (which : Bool) (s : RaceState) : RaceState :=
  if which then
    match s.localA, s.idA with
    | none, _ => { s with localA := some s.counter }
    | some l, none => { s with counter := l + 1, idA := some (l + 1) }
    | some _, some _ => s
  else
    match s.localB, s.idB with
    | none, _ => { s with localB := some s.counter }
    | some l, none => { s with counter := l + 1, idB := some (l + 1) }
    | some _, some _ => s

/-- Run a schedule of micro-steps. -/
def raceRun (sched : List Bool) (s : RaceState) : RaceState :=
  sched.foldl (fun st w => raceStep w st) s

/-- Classification table exactly as the claim words it: FIRE and FIRE_ALERT
to FIRE, SECURITY to SECURITY, MEDICAL to MEDICAL, EVACUATION to
EVACUATION, every other string to SECURITY. Stated from the claim, to be
compared with the dict lookup the code performs. -/
def claimClassify (t : String) : AlertType :=
  if t = "FIRE" then .FIRE
  else if t = "FIRE_ALERT" then .FIRE
  else if t = "SECURITY" then .SECURITY
  else if t = "MEDICAL" then .MEDICAL
  else if t = "EVACUATION" then .EVACUATION
  else .SECURITY

/-- Handler instance as built in the tests: both connections on localhost,
fresh counter, no callback. -/
def testHandler : MQTTAlertHandler :=
  { simulator_broker := "localhost", simulator_port := 1883
    client_broker := "localhost", client_port := 1884 }

/-- The well-formed fire event of the spec scenario in section 8. -/
def fireEvent : EmergencyEvent :=
  { event_id := "fire-001"
    event_type := "FIRE"
    timestamp := { iso := "2024-01-01T12:00:00" }
    severity := "HIGH"
    metadata := some [("description", .str "Fire in B"),
                      ("disabled_tiles", .list [.int 101, .int 102])] }

/-- A well-formed event that passes EmergencyEvent validation but whose
disabled_tiles value is the int 5, not a list, so the Alert construction
inside _create_alert_from_event raises a ValidationError. -/
def badTilesEvent : EmergencyEvent :=
  { event_id := "bad-001"
    event_type := "FIRE"
    timestamp := { iso := "2024-01-01T12:00:00" }
    severity := "HIGH"
    metadata := some [("description", .str "bad tiles"),
                      ("disabled_tiles", .int 5)] }

/-- JSON payload decoding to badTilesEvent. -/
def badTilesPayload : JValue :=
  .dict [("event_id", .str "bad-001"),
         ("event_type", .str "FIRE"),
         ("timestamp", .str "2024-01-01T12:00:00"),
         ("severity", .str "HIGH"),
         ("metadata", .dict [("description", .str "bad tiles"),
                             ("disabled_tiles", .int 5)])]

/-- A well-formed event whose disabled_tiles value is the list of one
integer string, which pydantic coerces to the int 5. -/
def strTilesEvent : EmergencyEvent :=
  { event_id := "str-001"
    event_type := "FIRE"
    timestamp := { iso := "2024-01-01T12:00:00" }
    severity := "HIGH"
    metadata := some [("disabled_tiles", .list [.str "5"])] }

/-- JSON payload decoding to fireEvent. -/
def firePayload : JValue :=
  .dict [("event_id", .str "fire-001"),
         ("event_type", .str "FIRE"),
         ("timestamp", .str "2024-01-01T12:00:00"),
         ("severity", .str "HIGH"),
         ("metadata", .dict [("description", .str "Fire in B"),
                             ("disabled_tiles", .list [.int 101, .int 102])])]

/-- A JSON payload that fails EmergencyEvent validation: the required
event_id field is missing. -/
def missingFieldPayload : JValue :=
  .dict [("event_type", .str "FIRE"),
         ("timestamp", .str "2024-01-01T12:00:00"),
         ("severity", .str "HIGH")]

example : parseEvent firePayload = .ok fireEvent := by rfl
example : parseEvent badTilesPayload = .ok badTilesEvent := by rfl
example : (parseEvent missingFieldPayload).isOk = false := by decide

/-- Ids of the alerts returned by the successful calls of a build sequence,
in call order. -/
def okIds (rs : List (Except String Alert)) : List Nat :=
  rs.filterMap (fun r => match r with | .ok a => some a.id | .error _ => none)

section HelperLemmas

/-- The dict lookup with SECURITY default used by the code agrees with the
if-chain classification table written in the claim. -/
theorem lookup_eq_claimClassify (s : String) :
    (alert_type_map.lookup s).getD .SECURITY = claimClassify s := by
  simp only [alert_type_map, List.lookup]
  repeat' split
  all_goals simp_all [claimClassify, beq_iff_eq, beq_eq_false_iff_ne]

/-- Coercion of a list of actual Python ints is the identity. -/
theorem pyCoerceIntList_map_int (ts : List Int) :
    pyCoerceIntList (.list (ts.map JValue.int)) = some ts := by
  simp only [pyCoerceIntList]
  induction ts with
  | nil => rfl
  | cons t ts ih =>
      simp only [List.map, List.mapM_cons]
      simp_all [pyCoerceInt]

/-- Unfolding of eventTiles when the key is present. -/
theorem eventTiles_lookup_some {e : EmergencyEvent} {v : JValue}
    (h : (e.get_details).lookup "disabled_tiles" = some v) :
    eventTiles e = pyCoerceIntList v := by
  unfold eventTiles; rw [h]

/-- Unfolding of eventTiles when the key is absent. -/
theorem eventTiles_lookup_none {e : EmergencyEvent}
    (h : (e.get_details).lookup "disabled_tiles" = none) :
    eventTiles e = some [] := by
  unfold eventTiles; rw [h]

/-- Field content of a successful _create_alert_from_event call. -/
theorem create_alert_ok_elim {h h2 : MQTTAlertHandler} {e : EmergencyEvent}
    {a : Alert} (hc : h.create_alert_from_event e = (h2, .ok a)) :
    eventTiles e = some a.disabled_tiles ∧
    a.id = h.alert_id_counter + 1 ∧
    a.type = eventAlertType e ∧
    a.message = eventMessage e ∧
    a.timestamp = e.timestamp ∧
    a.severity = e.severity ∧
    h2 = { h with alert_id_counter := h.alert_id_counter + 1 } := by
  unfold MQTTAlertHandler.create_alert_from_event at hc
  split at hc
  · rename_i tiles ht
    obtain ⟨hh, ha⟩ := Prod.mk.injEq .. ▸ hc
    cases ha
    simp_all
  · simp at hc

end HelperLemmas

/-- Claim C4: get_details returns the metadata mapping when it is present
and non-empty, otherwise the details mapping when present, otherwise the
empty mapping; the result is always verbatim one of the two mappings or
empty, never a merge. -/
theorem get_details_resolution (e : EmergencyEvent) :
    (∀ m, e.metadata = some m → m ≠ [] → e.get_details = m) ∧
    ((e.metadata = none ∨ e.metadata = some []) →
      (∀ d, e.details = some d → e.get_details = d) ∧
      (e.details = none → e.get_details = [])) ∧
    (e.get_details = [] ∨ e.metadata = some e.get_details ∨
      e.details = some e.get_details) := by
  refine ⟨?_, ?_, ?_⟩
  · intro m hm hne
    simp [EmergencyEvent.get_details, pyOrDict, hm, List.isEmpty_iff, hne]
  · intro hmd
    constructor
    · intro d hd
      rcases eq_or_ne d [] with rfl | hne <;> rcases hmd with hm | hm <;>
        simp_all [EmergencyEvent.get_details, pyOrDict, List.isEmpty_iff]
    · intro hd
      rcases hmd with hm | hm <;>
        simp [EmergencyEvent.get_details, pyOrDict, hm, hd]
  · unfold EmergencyEvent.get_details pyOrDict
    rcases hm : e.metadata with _ | m <;> rcases hd : e.details with _ | d
    · simp
    · rcases eq_or_ne d [] with rfl | hne <;> simp_all [List.isEmpty_iff]
    · rcases eq_or_ne m [] with rfl | hne <;> simp_all [List.isEmpty_iff]
    · rcases eq_or_ne m [] with rfl | hme <;>
        rcases eq_or_ne d [] with rfl | hde <;> simp_all [List.isEmpty_iff]

/-- Witness for C4 at the spec scenario event. -/
theorem get_details_resolution_witness :
    fireEvent.get_details =
      [("description", .str "Fire in B"),
       ("disabled_tiles", .list [.int 101, .int 102])] :=
  (get_details_resolution fireEvent).1 _ rfl (by simp)

/-- The Alert the handler builds from fireEvent on a fresh counter. -/
def fireAlert : Alert :=
  { id := 1
    type := .FIRE
    disabled_tiles := [101, 102]
    message := "FIRE: Fire in B"
    timestamp := { iso := "2024-01-01T12:00:00" }
    severity := "HIGH" }

example : testHandler.create_alert_from_event fireEvent =
    ({ testHandler with alert_id_counter := 1 }, .ok fireAlert) := by rfl

/-- Claim C5: the alert type assigned by _create_alert_from_event is a
function of the uppercased event_type only, given by the fixed table FIRE,
FIRE_ALERT to FIRE, SECURITY to SECURITY, MEDICAL to MEDICAL, EVACUATION
to EVACUATION, and every other string to SECURITY; in particular fire and
FIRE classify alike and WEATHER classifies as SECURITY. -/
theorem alert_type_classification :
    (∀ (h h2 : MQTTAlertHandler) (e : EmergencyEvent) (a : Alert),
        h.create_alert_from_event e = (h2, .ok a) →
        a.type = claimClassify (pyUpper e.event_type)) ∧
    claimClassify (pyUpper "fire") = claimClassify (pyUpper "FIRE") ∧
    claimClassify (pyUpper "WEATHER") = .SECURITY := by
  refine ⟨?_, by decide, by decide⟩
  intro h h2 e a hc
  have := (create_alert_ok_elim hc).2.2.1
  rw [this, eventAlertType, lookup_eq_claimClassify]

/-- Witness for C5 at the spec scenario event. -/
theorem alert_type_classification_witness :
    fireAlert.type = claimClassify (pyUpper fireEvent.event_type) :=
  alert_type_classification.1 testHandler
    { testHandler with alert_id_counter := 1 } fireEvent fireAlert (by rfl)

/-- Claim C6: the message of a built Alert is the literal original
event_type string, a colon and a space, then the description entry of the
details payload when present and the fixed fallback phrase otherwise. -/
theorem alert_message_format :
    ∀ (h h2 : MQTTAlertHandler) (e : EmergencyEvent) (a : Alert),
      h.create_alert_from_event e = (h2, .ok a) →
      a.message = e.event_type ++ ": " ++
        (match (e.get_details).lookup "description" with
         | some v => pyStr v
         | none => "Emergency detected") := by
  intro h h2 e a hc
  have := (create_alert_ok_elim hc).2.2.2.1
  rw [this, eventMessage]

/-- Witness for C6 at the spec scenario event: the message keeps the
literal event type and the description. -/
theorem alert_message_format_witness :
    fireAlert.message = fireEvent.event_type ++ ": " ++
      (match (fireEvent.get_details).lookup "description" with
       | some v => pyStr v
       | none => "Emergency detected") :=
  alert_message_format testHandler
    { testHandler with alert_id_counter := 1 } fireEvent fireAlert (by rfl)

/-- Counterexample to claim C3: badTilesPayload passes EmergencyEvent
validation, yet _create_alert_from_event reaches the error branch of the
Alert construction, because the disabled_tiles entry of the details
payload is the int 5 and the list of ints field of Alert rejects it. -/
theorem create_alert_can_fail_counterexample :
    parseEvent badTilesPayload = .ok badTilesEvent ∧
    (testHandler.create_alert_from_event badTilesEvent).2 =
      .error "ValidationError: disabled_tiles" :=
  ⟨by rfl, by rfl⟩

/-- Claim C3 amended: for every well-formed Event whose disabled_tiles
entry, when present, coerces to a list of ints, _create_alert_from_event
returns an Alert; the error branch is unreachable only under that extra
condition on the details payload, not for arbitrary payload values. -/
theorem create_alert_ok_when_tiles_wellformed :
    ∀ (h : MQTTAlertHandler) (e : EmergencyEvent),
      (∀ v, (e.get_details).lookup "disabled_tiles" = some v →
            (pyCoerceIntList v).isSome = true) →
      ((h.create_alert_from_event e).2).isOk = true := by
  intro h e htiles
  unfold MQTTAlertHandler.create_alert_from_event
  cases ht : eventTiles e with
  | some tiles => rfl
  | none =>
      exfalso
      cases hl : (e.get_details).lookup "disabled_tiles" with
      | none => rw [eventTiles_lookup_none hl] at ht; simp at ht
      | some v =>
          rw [eventTiles_lookup_some hl] at ht
          have h2 := htiles v hl
          rw [ht] at h2
          simp at h2

/-- Witness for amended C3 at the spec scenario event. -/
theorem create_alert_ok_when_tiles_wellformed_witness :
    ((testHandler.create_alert_from_event fireEvent).2).isOk = true :=
  create_alert_ok_when_tiles_wellformed testHandler fireEvent
    (fun v hv => by
      have hv2 : some (JValue.list [.int 101, .int 102]) = some v := by
        rw [← hv]; rfl
      cases hv2; rfl)

/-- The Alert built from strTilesEvent: pydantic coerces the integer
string in the list, so the stored tiles are ints. -/
def strTilesAlert : Alert :=
  { id := 1
    type := .FIRE
    disabled_tiles := [5]
    message := "FIRE: Emergency detected"
    timestamp := { iso := "2024-01-01T12:00:00" }
    severity := "HIGH" }

/-- Counterexample to claim C7: strTilesEvent is a valid Event whose
disabled_tiles details value is the one-element list of the string 5;
the build succeeds, but coercion turns the element into the int 5, so the
projected affected_areas is not equal to the original details value. -/
theorem projection_affected_areas_counterexample :
    (testHandler.create_alert_from_event strTilesEvent).2 = .ok strTilesAlert ∧
    (projectClientAlert strTilesAlert).affected_areas = [5] ∧
    (strTilesEvent.get_details).lookup "disabled_tiles" =
      some (.list [.str "5"]) ∧
    JValue.list ((projectClientAlert strTilesAlert).affected_areas.map JValue.int) ≠
      JValue.list [.str "5"] := by
  refine ⟨by rfl, by rfl, by rfl, ?_⟩
  rw [show (projectClientAlert strTilesAlert).affected_areas = [5] from rfl]
  simp

/-- Claim C7 amended: the projection is pure and total and copies
alert_id, message and severity unchanged, renders alert_type as the enum
string and timestamp as the ISO-8601 string, and copies disabled_tiles to
affected_areas in order; project(build(E)).affected_areas equals the
disabled_tiles details value of E when that value is a list of actual
ints (and is empty when the key is absent), but coercion of integer
strings can make it differ from the original value. -/
theorem projection_fields_and_affected_areas :
    (∀ a : Alert,
       (projectClientAlert a).alert_id = a.id ∧
       (projectClientAlert a).alert_type = a.type.value ∧
       (projectClientAlert a).message = a.message ∧
       (projectClientAlert a).timestamp = a.timestamp.isoformat ∧
       (projectClientAlert a).severity = a.severity ∧
       (projectClientAlert a).affected_areas = a.disabled_tiles) ∧
    (∀ (h h2 : MQTTAlertHandler) (e : EmergencyEvent) (a : Alert) (ts : List Int),
       h.create_alert_from_event e = (h2, .ok a) →
       (e.get_details).lookup "disabled_tiles" = some (.list (ts.map JValue.int)) →
       (projectClientAlert a).affected_areas = ts) ∧
    (∀ (h h2 : MQTTAlertHandler) (e : EmergencyEvent) (a : Alert),
       h.create_alert_from_event e = (h2, .ok a) →
       (e.get_details).lookup "disabled_tiles" = none →
       (projectClientAlert a).affected_areas = []) := by
  refine ⟨fun a => ⟨rfl, rfl, rfl, rfl, rfl, rfl⟩, ?_, ?_⟩
  · intro h h2 e a ts hc hl
    have ht := (create_alert_ok_elim hc).1
    rw [eventTiles_lookup_some hl, pyCoerceIntList_map_int] at ht
    have hts : ts = a.disabled_tiles := by injection ht
    simpa [projectClientAlert] using hts.symm
  · intro h h2 e a hc hl
    have ht := (create_alert_ok_elim hc).1
    rw [eventTiles_lookup_none hl] at ht
    have hts : ([] : List Int) = a.disabled_tiles := by injection ht
    simpa [projectClientAlert] using hts.symm

/-- Witness for amended C7 at the spec scenario event: the projected
affected areas are 101, 102 in the original order. -/
theorem projection_fields_and_affected_areas_witness :
    (projectClientAlert fireAlert).affected_areas = [101, 102] :=
  projection_fields_and_affected_areas.2.1 testHandler
    { testHandler with alert_id_counter := 1 } fireEvent fireAlert
    [101, 102] (by rfl) (by rfl)

/-- The Alert returned by the second call of the C2 counterexample run:
the failed first call already consumed id 1. -/
def gapAlert : Alert :=
  { id := 2
    type := .FIRE
    disabled_tiles := [101, 102]
    message := "FIRE: Fire in B"
    timestamp := { iso := "2024-01-01T12:00:00" }
    severity := "HIGH" }

/-- Counterexample to claim C2: on a fresh handler, a first call whose
Alert construction raises still increments the counter, so the first
Alert actually returned carries id 2, not id 1, and the returned ids are
not 1, 2, 3, ... -/
theorem alert_ids_gap_counterexample :
    (runBuilds testHandler [badTilesEvent, fireEvent]).2 =
      [.error "ValidationError: disabled_tiles", .ok gapAlert] ∧
    okIds (runBuilds testHandler [badTilesEvent, fireEvent]).2 = [2] ∧
    okIds (runBuilds testHandler [badTilesEvent, fireEvent]).2 ≠ [1] :=
  ⟨by rfl, by rfl, by simp [show okIds (runBuilds testHandler
      [badTilesEvent, fireEvent]).2 = [2] from rfl]⟩

/-- Claim C2 amended: every call to _create_alert_from_event increments
the counter by exactly one whether or not it succeeds; the alert returned
by a successful i-th call has id equal to the initial counter plus i plus
one, so when every call succeeds the ids from a fresh instance are
exactly 1, 2, 3, ..., while a call whose Alert construction raises still
consumes an id and leaves a gap; set_message_callback, broadcast_alert,
send_alert_to_client and stop never change the counter. -/
theorem alert_id_counter_behaviour :
    ∀ (h : MQTTAlertHandler) (es : List EmergencyEvent),
      ((runBuilds h es).1.alert_id_counter = h.alert_id_counter + es.length) ∧
      (∀ i a, (runBuilds h es).2.get? i = some (.ok a) →
              a.id = h.alert_id_counter + i + 1) ∧
      (∀ cb, (h.set_message_callback cb).alert_id_counter = h.alert_id_counter) ∧
      (∀ al, (h.broadcast_alert al).1.alert_id_counter = h.alert_id_counter) ∧
      (∀ cid al, (h.send_alert_to_client cid al).1.alert_id_counter =
        h.alert_id_counter) ∧
      (h.stop.alert_id_counter = h.alert_id_counter) := by
  intro h es
  refine ⟨?_, ?_, fun cb => rfl, fun al => rfl, fun cid al => rfl, rfl⟩
  · induction es generalizing h with
    | nil => simp [runBuilds]
    | cons e es ih =>
        have step : ((h.create_alert_from_event e).1).alert_id_counter =
            h.alert_id_counter + 1 := by
          unfold MQTTAlertHandler.create_alert_from_event
          cases ht : eventTiles e <;> rfl
        simp only [runBuilds, List.length_cons]
        rw [ih, step]
        omega
  · induction es generalizing h with
    | nil => intro i a hi; simp [runBuilds] at hi
    | cons e es ih =>
        intro i a hi
        have step : ((h.create_alert_from_event e).1).alert_id_counter =
            h.alert_id_counter + 1 := by
          unfold MQTTAlertHandler.create_alert_from_event
          cases ht : eventTiles e <;> rfl
        cases i with
        | zero =>
            simp only [runBuilds, List.get?] at hi
            have ha : (h.create_alert_from_event e).2 = .ok a := by
              injection hi
            have hc : h.create_alert_from_event e =
                ((h.create_alert_from_event e).1, .ok a) := by
              rw [← ha]
            have := (create_alert_ok_elim hc).2.1
            omega
        | succ i =>
            simp only [runBuilds, List.get?] at hi
            have := ih (h.create_alert_from_event e).1 i a hi
            rw [step] at this
            omega

/-- Witness for amended C2: on a fresh handler one successful call yields
the alert with id 1 and counter 1. -/
theorem alert_id_counter_behaviour_witness :
    (runBuilds testHandler [fireEvent]).1.alert_id_counter =
      testHandler.alert_id_counter + 1 ∧
    fireAlert.id = testHandler.alert_id_counter + 0 + 1 :=
  ⟨(alert_id_counter_behaviour testHandler [fireEvent]).1,
   (alert_id_counter_behaviour testHandler [fireEvent]).2.1 0 fireAlert (by rfl)⟩

/-- An inbound payload that _on_message drops: either the JSON decode
fails or the decoded value fails EmergencyEvent validation. -/
def isBadPayload : RawPayload → Bool
  | .invalidJson => true
  | .json v => !(parseEvent v).isOk

/-- Claim C8: on a payload that is not valid JSON or fails Event
validation, _on_message produces and publishes no alert, leaves the
handler state, the id counter included, unchanged, and raises nothing
(the model of the method is a total function); the handler keeps
listening and every subsequent message is processed exactly as if the bad
one had never arrived. -/
theorem on_message_swallows_bad_payloads :
    ∀ (h : MQTTAlertHandler) (raw : RawPayload),
      isBadPayload raw = true →
      h.on_message raw = (h, []) ∧
      (∀ raw2, ((h.on_message raw).1).on_message raw2 = h.on_message raw2) := by
  intro h raw hbad
  have hmain : h.on_message raw = (h, []) := by
    cases raw with
    | invalidJson => rfl
    | json v =>
        simp only [MQTTAlertHandler.on_message]
        cases hp : parseEvent v with
        | error err => rfl
        | ok e =>
            simp [isBadPayload, hp, Except.isOk, Except.toBool] at hbad
  exact ⟨hmain, fun raw2 => by rw [hmain]⟩

/-- Witness for C8: a JSON decode failure and a payload missing the
required event_id field are both dropped without state change, and the
valid fire payload is then processed as from the initial state. -/
theorem on_message_swallows_bad_payloads_witness :
    (testHandler.on_message .invalidJson = (testHandler, []) ∧
     ∀ raw2, ((testHandler.on_message .invalidJson).1).on_message raw2 =
       testHandler.on_message raw2) ∧
    testHandler.on_message (.json missingFieldPayload) = (testHandler, []) :=
  ⟨on_message_swallows_bad_payloads testHandler .invalidJson (by rfl),
   (on_message_swallows_bad_payloads testHandler
     (.json missingFieldPayload) (by rfl)).1⟩

/-- Claim C10: when a registered callback raises on a decoded valid event,
_on_message returns normally with exactly the state change and publishes
the callback performed before raising: the exception does not propagate,
the listening loop is not terminated, and the default build-and-broadcast
path adds no publish and no counter increment for that event. -/
theorem on_message_callback_exception_contained :
    ∀ (h : MQTTAlertHandler) (cb : CallbackSem) (v : JValue)
      (e : EmergencyEvent) (n : Nat) (pubs : List Publish) (err : String),
      h.message_callback = some cb →
      parseEvent v = .ok e →
      cb h.alert_id_counter e = (n, pubs, some err) →
      h.on_message (.json v) = ({ h with alert_id_counter := n }, pubs) := by
  intro h cb v e n pubs err hcb hp hraise
  simp only [MQTTAlertHandler.on_message]
  rw [hp]
  simp only [hcb, hraise]

/-- A callback that raises immediately: no publish, no counter change,
an exception value. -/
def raisingCallback : CallbackSem :=
  fun n _ => (n, [], some "RuntimeError: boom")

/-- Witness for C10: with the raising callback installed, the valid fire
payload produces no publish and the handler survives. -/
theorem on_message_callback_exception_contained_witness :
    (testHandler.set_message_callback raisingCallback).on_message
        (.json firePayload) =
      ({ testHandler.set_message_callback raisingCallback with
          alert_id_counter := 0 }, []) :=
  on_message_callback_exception_contained
    (testHandler.set_message_callback raisingCallback) raisingCallback
    firePayload fireEvent 0 [] "RuntimeError: boom" rfl (by rfl) rfl

/-- Counterexample to claim C9: the counter increment in
_create_alert_from_event is a bare read-modify-write with no lock or
atomic, so the interleaving read A, read B, write A, write B of two
concurrent calls makes both calls observe id 1. -/
theorem unsynchronized_increment_race_counterexample :
    (raceRun [true, false, true, false] raceInit).idA = some 1 ∧
    (raceRun [true, false, true, false] raceInit).idB = some 1 :=
  ⟨by rfl, by rfl⟩

/-- Claim C9 amended: the code performs no synchronization around the
counter increment, so uniqueness of ids holds only for serialized
executions: when the two micro-operations of each call run without
interleaving, in either order, the two calls observe the distinct ids 1
and 2. -/
theorem serialized_increment_distinct_ids :
    ((raceRun [true, true, false, false] raceInit).idA = some 1 ∧
     (raceRun [true, true, false, false] raceInit).idB = some 2) ∧
    ((raceRun [false, false, true, true] raceInit).idA = some 2 ∧
     (raceRun [false, false, true, true] raceInit).idB = some 1) := by
  refine ⟨⟨by rfl, by rfl⟩, ⟨by rfl, by rfl⟩⟩

/-- Claim C1: AlertService.__init__ reads the configuration with the
documented defaults, but its MQTTAlertHandler(...) call binds the keyword
names broker and port, which MQTTAlertHandler.__init__ does not accept
(it requires simulator_broker, simulator_port, client_broker,
client_port), so the construction raises TypeError for every environment
and never succeeds. -/
theorem alert_service_init_raises :
    (∀ env : Env, (alertServiceInit env).isOk = false) ∧
    readServiceConfig [] =
      { broker := "localhost", port := some 1883,
        simulator_topic := "stadium/events/emergency",
        client_topic_stem := "alerts/client" } ∧
    kwargsBind mqttHandlerInitParams mqttHandlerInitRequired
      alertServiceCallKwargs = false := by
  refine ⟨?_, by rfl, by rfl⟩
  intro env
  simp only [alertServiceInit]
  cases hp : (readServiceConfig env).port with
  | none => simp [hp, Except.isOk, Except.toBool]
  | some p =>
      simp [hp, Except.isOk, Except.toBool,
        show kwargsBind mqttHandlerInitParams mqttHandlerInitRequired
          alertServiceCallKwargs = false from rfl]
